import Mathlib

/-!
Verification of the `ConversationOrchestrator` voice-interview state machine
(`backend/services/conversation_orchestrator.py`) and its turn-processing
caller (`backend/core/socket_handlers.py`).

Strings are modelled as Lean `String`; Python `str.lower()` is modelled by
ASCII lowercasing (`Char.toLower`), `str.split()` (no argument) by counting
maximal runs of non-whitespace characters, `str.strip()` by dropping leading
and trailing whitespace, and the Python `in` substring test by an explicit
sublist search on character lists.
-/

namespace AIN

/-- Drop leading whitespace characters, as the front half of Python `strip`. -/
def dropWs : List Char → List Char
  | [] => []
  | c :: cs => if c.isWhitespace then dropWs cs else c :: cs

/-- Model of Python `s.strip()` : drop whitespace at both ends. -/
def pyStrip (s : String) : List Char :=
  (dropWs (dropWs s.data).reverse).reverse

/-- Count maximal runs of non-whitespace characters; the flag records whether
the previous character was inside a word. -/
def wcAux : List Char → Bool → Nat
  | [], _ => 0
  | c :: cs, inWord =>
    if c.isWhitespace then wcAux cs false
    else (if inWord then 0 else 1) + wcAux cs true

/-- Model of Python `len(s.split())` : the number of whitespace-separated
tokens of `s`. -/
def pyWordCount (s : String) : Nat := wcAux s.data false

/-- Model of Python `s.lower()` on the ASCII range. -/
def pyLower (s : String) : List Char := s.data.map Char.toLower

/-- `leadsWith n h` : `n` is an initial segment of `h`. -/
def leadsWith : List Char → List Char → Bool
  | [], _ => true
  | _ :: _, [] => false
  | n :: ns, h :: hs => n == h && leadsWith ns hs

/-- `hasSub n h` : `n` occurs as a contiguous sublist of `h`; model of the
Python substring test `n in h`. -/
def hasSub (n : List Char) : List Char → Bool
  | [] => leadsWith n []
  | c :: hs => leadsWith n (c :: hs) || hasSub n hs

/-- The fixed `STAGES` list of the orchestrator. -/
def STAGES : List String :=
  ["greeting", "experience_probe", "technical_deep_dive", "behavioral", "closing"]

/-- One entry of `conversation_history`, as appended by `record_interaction`. -/
structure Interaction where
  stage : String
  question : String
  answer : String
  is_followup : Bool
  word_count : Nat
  needed_followup : Bool
deriving Repr, DecidableEq

/-- The mutable state of one `ConversationOrchestrator` session. -/
structure Orchestrator where
  job_role : String
  resume_skills : List String
  current_stage : Nat
  weak_areas : List String
  follow_up_count : Nat
  questions_asked : List String
  conversation_history : List Interaction
deriving Repr, DecidableEq

/-- `ConversationOrchestrator.__init__` : empty `resume_skills` falls back to
the placeholder list, all counters start at zero, histories empty. -/
def mkOrchestrator (job_role : String) (resume_skills : List String) : Orchestrator :=
  { job_role := job_role
    resume_skills := if resume_skills = [] then ["general technical skills"] else resume_skills
    current_stage := 0
    weak_areas := []
    follow_up_count := 0
    questions_asked := []
    conversation_history := [] }

/-- The fixed specificity-marker list of `should_ask_followup`. -/
def specificity_indicators : List String :=
  ["because", "example", "specifically", "by using", "with", "when", "where",
   "implemented", "designed", "built", "created", "developed", "managed",
   "result", "outcome", "impact", "achieved", "improved", "reduced",
   "increased", "optimized", "solved", "fixed", "handled"]

/-- The fixed technical-vocabulary list of `should_ask_followup`. -/
def technical_indicators : List String :=
  ["algorithm", "database", "api", "framework", "library", "method",
   "function", "class", "object", "variable", "query", "server",
   "client", "frontend", "backend", "architecture", "design pattern"]

/-- `any(indicator in answer_text.lower() for indicator in specificity_indicators)`. -/
def has_specifics (answer_text : String) : Bool :=
  specificity_indicators.any fun ind => hasSub ind.data (pyLower answer_text)

/-- `any(term in answer_text.lower() for term in technical_indicators)`. -/
def has_technical_terms (answer_text : String) : Bool :=
  technical_indicators.any fun term => hasSub term.data (pyLower answer_text)

/-- `ConversationOrchestrator.should_ask_followup` : the vagueness verdict.
Note the source tests the short-answer branch before the follow-up cap. -/
def should_ask_followup (o : Orchestrator) (answer_text : String) : Bool :=
  if answer_text = "" || (pyStrip answer_text).length < 5 then true
  else
    let word_count := pyWordCount answer_text
    let hs := has_specifics answer_text
    let ht := if 2 ≤ o.current_stage then has_technical_terms answer_text else false
    let is_vague :=
      decide (word_count < 15) ||
      (decide (word_count < 30) && !hs) ||
      (decide (2 ≤ o.current_stage) && decide (word_count < 40) && !ht)
    if 2 ≤ o.follow_up_count then false else is_vague

/-- `ConversationOrchestrator.advance_stage` : increment the stage and reset
the follow-up counter, but only below the terminal stage. -/
def advance_stage (o : Orchestrator) : Orchestrator :=
  if o.current_stage < STAGES.length - 1 then
    { o with current_stage := o.current_stage + 1, follow_up_count := 0 }
  else o

/-- `ConversationOrchestrator.is_interview_complete`. -/
def is_interview_complete (o : Orchestrator) : Bool :=
  decide (STAGES.length - 1 ≤ o.current_stage) && decide (2 ≤ o.conversation_history.length)

/-- `ConversationOrchestrator.record_interaction` : append one history entry;
the stage name is looked up in `STAGES` at `current_stage`. -/
def record_interaction (o : Orchestrator) (question answer : String)
    (is_followup : Bool) : Orchestrator :=
  { o with conversation_history := o.conversation_history ++
      [{ stage := STAGES.getD o.current_stage ""
         question := question
         answer := answer
         is_followup := is_followup
         word_count := pyWordCount answer
         needed_followup := should_ask_followup o answer }] }

/-- Python `', '.join(xs)`. -/
def joinComma (xs : List String) : String := String.intercalate ", " xs

/-- The `stage_prompts` dictionary of `get_system_prompt`, looked up with
default `""`; the source builds the technical entry from `resume_skills[0]`,
which is defined because `__init__` never leaves `resume_skills` empty. -/
def stage_prompt (o : Orchestrator) (stage : String) : String :=
  if stage = "greeting" then
    "\nGREETING STAGE:\n- Start warmly and professionally\n- Ask about their current role or recent experience\n- Keep it brief, build rapport\n- Example: \"Thanks for joining! Tell me about your current role.\"\n"
  else if stage = "experience_probe" then
    "\nEXPERIENCE PROBE STAGE:\n- Deep dive into their most relevant experience\n- Ask for specific examples and outcomes\n- Probe for technical challenges they\x27ve solved\n- Look for leadership and problem-solving examples\n- Example: \"Walk me through your most challenging project.\"\n"
  else if stage = "technical_deep_dive" then
    "\nTECHNICAL DEEP DIVE STAGE:\n- Test knowledge of " ++ o.resume_skills.headD "" ++
    " and related technologies\n- Ask problem-solving questions\n- Present hypothetical scenarios\n- Assess depth of understanding\n- Example: \"How would you design a system for [specific problem]?\"\n"
  else if stage = "behavioral" then
    "\nBEHAVIORAL STAGE:\n- Ask about teamwork, conflicts, leadership situations\n- Use STAR method (Situation, Task, Action, Result)\n- Focus on soft skills and cultural fit\n- Example: \"Tell me about a time you disagreed with a team member.\"\n"
  else if stage = "closing" then
    "\nCLOSING STAGE:\n- Wrap up the interview professionally\n- Ask if they have questions about the role/company\n- Provide next steps information\n- Thank them for their time\n- Example: \"That covers my questions! What would you like to know about us?\"\n"
  else ""

/-- `ConversationOrchestrator.get_system_prompt` : pure function of
`current_stage`, `job_role`, `resume_skills`, `follow_up_count`, `weak_areas`. -/
def get_system_prompt (o : Orchestrator) : String :=
  let stage := STAGES.getD o.current_stage ""
  let base :=
    "You are an expert recruiter interviewing for a " ++ o.job_role ++ " position.\n" ++
    "Candidate\x27s resume skills: " ++ joinComma o.resume_skills ++ "\n\n" ++
    "CRITICAL CONVERSATION RULES:\n" ++
    "- Keep responses under 25 words maximum\n" ++
    "- Ask ONE question at a time\n" ++
    "- Use natural speech patterns: \"I see\", \"Got it\", \"Tell me more\"\n" ++
    "- If answer is vague, ask specific follow-up questions\n" ++
    "- Be conversational and engaging, not robotic\n" ++
    "- Show genuine interest in their responses\n" ++
    "- Acknowledge their answers before asking next question\n\n" ++
    "INTERVIEW FLOW:\n" ++
    "- Current stage: " ++ stage ++ " (" ++ toString (o.current_stage + 1) ++ "/" ++
      toString STAGES.length ++ ")\n" ++
    "- Follow-ups asked: " ++ toString o.follow_up_count ++ "\n" ++
    "- Weak areas identified: " ++
      (if o.weak_areas = [] then "None yet" else joinComma o.weak_areas) ++ "\n"
  base ++ stage_prompt o stage

/-- The per-stage pool of canned initial questions of `get_stage_question`. -/
def stage_question_pool (o : Orchestrator) : List String :=
  let stage := STAGES.getD o.current_stage ""
  let primary_skill :=
    match o.resume_skills with
    | [] => "your main technical skill"
    | s :: _ => s
  if stage = "greeting" then
    ["Hi! Thanks for joining. Tell me, what\x27s your current role?",
     "Good to meet you! Can you briefly describe what you\x27re working on now?",
     "Thanks for your time today! What\x27s keeping you busy in your current position?"]
  else if stage = "experience_probe" then
    ["Great! Can you walk me through your most challenging project as a " ++ o.job_role ++ "?",
     "Tell me about a recent project you\x27re particularly proud of.",
     "What\x27s the most complex problem you\x27ve solved in your current role?",
     "Describe a time when you had to learn something new quickly for a project."]
  else if stage = "technical_deep_dive" then
    ["Let\x27s dive into " ++ primary_skill ++ ". How would you approach designing a scalable system?",
     "If you had to optimize a slow " ++ primary_skill ++ " application, where would you start?",
     "Walk me through how you\x27d architect a solution using " ++ primary_skill ++ ".",
     "What\x27s a technical challenge you faced with " ++ primary_skill ++ " and how did you solve it?"]
  else if stage = "behavioral" then
    ["Tell me about a time you disagreed with a team member. How did you handle it?",
     "Describe a situation where you had to work under tight deadlines.",
     "Can you share an example of when you had to learn from a mistake?",
     "Tell me about a time you had to convince others to adopt your approach."]
  else if stage = "closing" then
    ["That covers my questions! What would you like to know about the role?",
     "We\x27re wrapping up. Do you have any questions about our team or company?",
     "Is there anything else you\x27d like me to know about your background?",
     "What questions do you have for me about this opportunity?"]
  else ["Tell me more about yourself."]

/-- `ConversationOrchestrator.get_stage_question` : `random.choice` over the
pool is modelled by a caller-supplied index `k`, reduced modulo the pool size;
the chosen question is appended to `questions_asked`. -/
def get_stage_question (o : Orchestrator) (k : Nat) : String × Orchestrator :=
  let pool := stage_question_pool o
  let question := pool.getD (k % pool.length) ""
  (question, { o with questions_asked := o.questions_asked ++ [question] })

/-- The per-stage pool of canned follow-up questions of `get_followup_question`,
looked up by stage name with the `"Can you elaborate on that?"` default. -/
def followup_pool (stage : String) : List String :=
  if stage = "greeting" then
    ["Can you tell me more about your day-to-day responsibilities?",
     "What\x27s the most interesting part of your current work?"]
  else if stage = "experience_probe" then
    ["Can you give me more specific details about that project?",
     "What technologies did you use and why?",
     "What was your specific role and contribution?",
     "What challenges did you encounter and how did you overcome them?"]
  else if stage = "technical_deep_dive" then
    ["Can you walk me through your technical approach step by step?",
     "What specific tools or frameworks would you choose?",
     "How would you handle potential scaling issues?",
     "What trade-offs would you consider in your design?"]
  else if stage = "behavioral" then
    ["Can you give me more details about the situation?",
     "What specific actions did you take?",
     "What was the outcome or result?",
     "What did you learn from that experience?"]
  else if stage = "closing" then
    ["Is there anything specific about the role you\x27d like to know?",
     "What draws you to this opportunity?"]
  else ["Can you elaborate on that?"]

/-- `ConversationOrchestrator.get_followup_question` : increments
`follow_up_count` unconditionally, then returns a canned follow-up for the
current stage (`random.choice` modelled by the index `k`). -/
def get_followup_question (o : Orchestrator) (previous_answer : String) (k : Nat) :
    String × Orchestrator :=
  let o1 := { o with follow_up_count := o.follow_up_count + 1 }
  let pool := followup_pool (STAGES.getD o1.current_stage "")
  (pool.getD (k % pool.length) "", o1)

/-- The orchestrator record persisted to the session store by `voice_input`:
`{job_role, skills, stage, follow_up_count}`. -/
structure OrchRecord where
  job_role : String
  skills : List String
  stage : Nat
  follow_up_count : Nat
deriving Repr, DecidableEq

/-- Serialization performed after each turn (`socket_handlers.py`, the
`redis_client.setex` call). -/
def saveOrchestrator (o : Orchestrator) : OrchRecord :=
  { job_role := o.job_role
    skills := o.resume_skills
    stage := o.current_stage
    follow_up_count := o.follow_up_count }

/-- Reconstruction performed by `voice_input` on the next turn: a fresh
construction followed by direct assignment of `current_stage` and
`follow_up_count` from the stored record, with no range validation. -/
def loadOrchestrator (r : OrchRecord) : Orchestrator :=
  let o := mkOrchestrator r.job_role r.skills
  { o with current_stage := r.stage, follow_up_count := r.follow_up_count }

/-- The orchestrator operations, as invocable by callers; the two pure reads
are included so that operation sequences can mention them. -/
inductive OrchOp where
  | advStage : OrchOp
  | recordI : String → String → Bool → OrchOp
  | followupQ : String → Nat → OrchOp
  | stageQ : Nat → OrchOp
  | shouldAsk : String → OrchOp
  | sysPrompt : OrchOp
deriving Repr, DecidableEq

/-- State effect of one orchestrator operation; `should_ask_followup` and
`get_system_prompt` mutate nothing. -/
def applyOp (o : Orchestrator) : OrchOp → Orchestrator
  | OrchOp.advStage => advance_stage o
  | OrchOp.recordI q a fb => record_interaction o q a fb
  | OrchOp.followupQ p k => (get_followup_question o p k).2
  | OrchOp.stageQ k => (get_stage_question o k).2
  | OrchOp.shouldAsk _ => o
  | OrchOp.sysPrompt => o

/-- Fold a sequence of operations over a session. -/
def applyOps (o : Orchestrator) (ops : List OrchOp) : Orchestrator :=
  ops.foldl applyOp o

/-- One turn of `_process_with_orchestrator` (`socket_handlers.py`): consult
`should_ask_followup`; on a vague answer under the cap increment
`follow_up_count`, otherwise advance the stage when not terminal; record the
interaction; when the generator is down, fall back to
`get_followup_question`/`get_stage_question` according to the verdict. -/
def turnStep (o : Orchestrator) (prev_question answer : String)
    (generator_down : Bool) (k : Nat) : Orchestrator :=
  let needs := should_ask_followup o answer
  let o1 :=
    if needs && decide (o.follow_up_count < 2) then
      { o with follow_up_count := o.follow_up_count + 1 }
    else if o.current_stage < STAGES.length - 1 then advance_stage o
    else o
  let o2 := record_interaction o1 prev_question answer needs
  if generator_down then
    if needs then (get_followup_question o2 answer k).2
    else (get_stage_question o2 k).2
  else o2

/-- One full turn followed by the save/load round trip through the session
store, yielding the session on which the next turn consults
`should_ask_followup`. -/
def turnThenRestore (o : Orchestrator) (prev_question answer : String)
    (generator_down : Bool) (k : Nat) : Orchestrator :=
  loadOrchestrator (saveOrchestrator (turnStep o prev_question answer generator_down k))

/-- The session states at which the turn-processing protocol consults
`should_ask_followup` : a fresh session, or the restored result of a turn. -/
inductive ConsultReachable : Orchestrator → Prop
  | init (jr : String) (sk : List String) : ConsultReachable (mkOrchestrator jr sk)
  | step (o : Orchestrator) (q a : String) (down : Bool) (k : Nat) :
      ConsultReachable o → ConsultReachable (turnThenRestore o q a down k)

/-- A sample recorded interaction, used to instantiate theorems about the
conversation history on concrete sessions. -/
def sampleInteraction : Interaction :=
  { stage := "closing"
    question := "q"
    answer := "a"
    is_followup := false
    word_count := 1
    needed_followup := true }

/-- A concrete session at the closing stage with two recorded interactions. -/
def closingSession : Orchestrator :=
  { mkOrchestrator "Software Engineer" ["Python"] with
      current_stage := 4
      conversation_history := [sampleInteraction, sampleInteraction] }

/-! Helper lemmas shared by several claims. -/

/-- Each whitespace-separated token holds at least one non-whitespace
character, so the token count is bounded by the non-whitespace count. -/
theorem wcAux_le_filter (cs : List Char) :
    ∀ b, wcAux cs b ≤ (cs.filter fun c => !c.isWhitespace).length := by
  induction cs with
  | nil => intro b; simp [wcAux]
  | cons c cs ih =>
    intro b
    by_cases hc : c.isWhitespace = true
    · simpa [wcAux, hc, List.filter_cons] using ih false
    · have h1 := ih true
      cases b <;> simp [wcAux, hc, List.filter_cons] <;> omega

/-- The vagueness verdict reads only `current_stage` and `follow_up_count`
from the session. -/
theorem shouldAsk_congr (o o' : Orchestrator) (a : String)
    (hst : o'.current_stage = o.current_stage)
    (hc : o'.follow_up_count = o.follow_up_count) :
    should_ask_followup o' a = should_ask_followup o a := by
  simp only [should_ask_followup, hst, hc]

/-- The system prompt reads only `job_role`, `resume_skills`, `current_stage`,
`follow_up_count` and `weak_areas` from the session. -/
theorem sysPrompt_congr (o o' : Orchestrator)
    (hjr : o'.job_role = o.job_role)
    (hsk : o'.resume_skills = o.resume_skills)
    (hst : o'.current_stage = o.current_stage)
    (hc : o'.follow_up_count = o.follow_up_count)
    (hw : o'.weak_areas = o.weak_areas) :
    get_system_prompt o' = get_system_prompt o := by
  simp only [get_system_prompt, stage_prompt, hjr, hsk, hst, hc, hw]

/-- No single operation moves the stage out of `[0, 5)`. -/
theorem applyOp_stage_lt (o : Orchestrator) (op : OrchOp)
    (h : o.current_stage < 5) : (applyOp o op).current_stage < 5 := by
  cases op with
  | advStage =>
    show (advance_stage o).current_stage < 5
    unfold advance_stage
    split
    · rename_i hlt
      show o.current_stage + 1 < 5
      have h4 : STAGES.length - 1 = 4 := rfl
      omega
    · exact h
  | recordI q a fb => exact h
  | followupQ p k => exact h
  | stageQ k => exact h
  | shouldAsk a => exact h
  | sysPrompt => exact h

/-- No single operation decreases the stage. -/
theorem applyOp_stage_le (o : Orchestrator) (op : OrchOp) :
    o.current_stage ≤ (applyOp o op).current_stage := by
  cases op with
  | advStage =>
    show o.current_stage ≤ (advance_stage o).current_stage
    unfold advance_stage
    split
    · show o.current_stage ≤ o.current_stage + 1
      omega
    · exact Nat.le_refl _
  | recordI q a fb => exact Nat.le_refl _
  | followupQ p k => exact Nat.le_refl _
  | stageQ k => exact Nat.le_refl _
  | shouldAsk a => exact Nat.le_refl _
  | sysPrompt => exact Nat.le_refl _

/-- No operation changes `job_role`, `resume_skills` or `weak_areas`. -/
theorem applyOp_core_frame (o : Orchestrator) (op : OrchOp) :
    (applyOp o op).job_role = o.job_role ∧
    (applyOp o op).resume_skills = o.resume_skills ∧
    (applyOp o op).weak_areas = o.weak_areas := by
  cases op with
  | advStage =>
    show (advance_stage o).job_role = o.job_role ∧
      (advance_stage o).resume_skills = o.resume_skills ∧
      (advance_stage o).weak_areas = o.weak_areas
    unfold advance_stage
    split
    · exact ⟨rfl, rfl, rfl⟩
    · exact ⟨rfl, rfl, rfl⟩
  | recordI q a fb => exact ⟨rfl, rfl, rfl⟩
  | followupQ p k => exact ⟨rfl, rfl, rfl⟩
  | stageQ k => exact ⟨rfl, rfl, rfl⟩
  | shouldAsk a => exact ⟨rfl, rfl, rfl⟩
  | sysPrompt => exact ⟨rfl, rfl, rfl⟩

/-- Stage bound over whole operation sequences. -/
theorem applyOps_stage_lt (o : Orchestrator) (ops : List OrchOp)
    (h : o.current_stage < 5) : (applyOps o ops).current_stage < 5 := by
  induction ops generalizing o with
  | nil => exact h
  | cons op ops ih => exact ih (applyOp o op) (applyOp_stage_lt o op h)

/-- Stage monotonicity over whole operation sequences. -/
theorem applyOps_stage_le (o : Orchestrator) (ops : List OrchOp) :
    o.current_stage ≤ (applyOps o ops).current_stage := by
  induction ops generalizing o with
  | nil => exact Nat.le_refl _
  | cons op ops ih =>
    exact Nat.le_trans (applyOp_stage_le o op) (ih (applyOp o op))

/-- Frame of the immutable fields over whole operation sequences. -/
theorem applyOps_core_frame (o : Orchestrator) (ops : List OrchOp) :
    (applyOps o ops).job_role = o.job_role ∧
    (applyOps o ops).resume_skills = o.resume_skills ∧
    (applyOps o ops).weak_areas = o.weak_areas := by
  induction ops generalizing o with
  | nil => exact ⟨rfl, rfl, rfl⟩
  | cons op ops ih =>
    obtain ⟨h1, h2, h3⟩ := ih (applyOp o op)
    obtain ⟨g1, g2, g3⟩ := applyOp_core_frame o op
    exact ⟨h1.trans g1, h2.trans g2, h3.trans g3⟩

/-! Claim theorems. -/

/-- C1 counterexample: at `follow_up_count = 2` the empty answer still yields
`true`, because the source tests the short-answer branch before the cap. -/
theorem shouldAsk_at_cap_short_true :
    should_ask_followup
      { mkOrchestrator "Software Engineer" ["Python"] with follow_up_count := 2 }
      "" = true := by
  decide

/-- C1 (amended): once `follow_up_count >= 2`, `should_ask_followup` returns
`false` for every answer whose stripped text has at least 5 characters; only
answers whose stripped text is shorter than 5 characters escape the cap. -/
theorem shouldAsk_at_cap_false (o : Orchestrator) (a : String)
    (hcap : 2 ≤ o.follow_up_count) (hlen : 5 ≤ (pyStrip a).length) :
    should_ask_followup o a = false := by
  have hne : a ≠ "" := by
    intro h0
    rw [h0] at hlen
    exact absurd hlen (by decide)
  have hnlt : ¬ ((pyStrip a).length < 5) := by omega
  simp [should_ask_followup, hne, hnlt, hcap]

/-- C1 witness: a concrete session at the cap and a long answer. -/
theorem shouldAsk_at_cap_false_witness :
    should_ask_followup
      { mkOrchestrator "Software Engineer" ["Python"] with follow_up_count := 2 }
      "this is a long answer" = false :=
  shouldAsk_at_cap_false
    { mkOrchestrator "Software Engineer" ["Python"] with follow_up_count := 2 }
    "this is a long answer" (by decide) (by decide)

/-- C2: the generator-fallback path double-increments `follow_up_count` (once
in the handler, once inside `get_followup_question`); after a vague turn with
the generator up and another with it down, the protocol consults
`should_ask_followup` on a restored session whose counter is 3, outside
`[0, 2]`. -/
theorem consult_state_count_three :
    ConsultReachable
      (turnThenRestore
        (turnThenRestore (mkOrchestrator "Software Engineer" ["Python"]) "q1" "hi" false 0)
        "q2" "hi" true 0) ∧
    (turnThenRestore
        (turnThenRestore (mkOrchestrator "Software Engineer" ["Python"]) "q1" "hi" false 0)
        "q2" "hi" true 0).follow_up_count = 3 := by
  constructor
  · exact ConsultReachable.step _ "q2" "hi" true 0
      (ConsultReachable.step _ "q1" "hi" false 0
        (ConsultReachable.init "Software Engineer" ["Python"]))
  · decide

/-- C3: below the cap, the verdict is `true` exactly when the stripped answer
is shorter than 5 characters, or the word count is under 15, or under 30
without a specificity marker, or (in a technical stage) under 40 without a
technical term; in particular any answer with fewer than 5 non-whitespace
characters yields `true`. -/
theorem shouldAsk_under_cap_iff (o : Orchestrator) (a : String)
    (h : o.follow_up_count < 2) :
    (should_ask_followup o a = true ↔
      ((pyStrip a).length < 5 ∨ pyWordCount a < 15 ∨
        (pyWordCount a < 30 ∧ has_specifics a = false) ∨
        (2 ≤ o.current_stage ∧ pyWordCount a < 40 ∧ has_technical_terms a = false)))
    ∧ ((a.data.filter fun c => !c.isWhitespace).length < 5 →
        should_ask_followup o a = true) := by
  have hcapP : ¬ (2 ≤ o.follow_up_count) := by omega
  have hiff : should_ask_followup o a = true ↔
      ((pyStrip a).length < 5 ∨ pyWordCount a < 15 ∨
        (pyWordCount a < 30 ∧ has_specifics a = false) ∨
        (2 ≤ o.current_stage ∧ pyWordCount a < 40 ∧ has_technical_terms a = false)) := by
    by_cases hshort : (pyStrip a).length < 5
    · simp [should_ask_followup, hshort]
    · have hne : a ≠ "" := by
        intro h0
        rw [h0] at hshort
        exact hshort (by decide)
      by_cases hst : 2 ≤ o.current_stage
      · simp [should_ask_followup, hne, hshort, hcapP, hst]
        try tauto
      · simp [should_ask_followup, hne, hshort, hcapP, hst]
        try tauto
  refine ⟨hiff, fun hfew => hiff.mpr ?_⟩
  have hwc : pyWordCount a < 15 := by
    have hle := wcAux_le_filter a.data false
    unfold pyWordCount
    omega
  exact Or.inr (Or.inl hwc)

/-- C3 witness: a fresh session and the three-word answer of the spec
scenario. -/
theorem shouldAsk_under_cap_iff_witness :
    (should_ask_followup (mkOrchestrator "Software Engineer" ["Python"]) "I write code" = true ↔
      ((pyStrip "I write code").length < 5 ∨ pyWordCount "I write code" < 15 ∨
        (pyWordCount "I write code" < 30 ∧ has_specifics "I write code" = false) ∨
        (2 ≤ (mkOrchestrator "Software Engineer" ["Python"]).current_stage ∧
          pyWordCount "I write code" < 40 ∧ has_technical_terms "I write code" = false)))
    ∧ ((("I write code".data.filter fun c => !c.isWhitespace).length < 5 →
        should_ask_followup (mkOrchestrator "Software Engineer" ["Python"]) "I write code" = true)) :=
  shouldAsk_under_cap_iff (mkOrchestrator "Software Engineer" ["Python"]) "I write code"
    (by decide)

/-- C4: from a fresh session, after any sequence of orchestrator operations
the stage is in `[0, 5)`; any further operations never decrease it; and every
operation other than `advance_stage` leaves it unchanged. -/
theorem stage_in_range_monotone (jr : String) (sk : List String)
    (ops more : List OrchOp) (o : Orchestrator) (op : OrchOp) :
    (applyOps (mkOrchestrator jr sk) ops).current_stage < 5 ∧
    (applyOps (mkOrchestrator jr sk) ops).current_stage ≤
      (applyOps (applyOps (mkOrchestrator jr sk) ops) more).current_stage ∧
    ((applyOp o op).current_stage = o.current_stage ∨ op = OrchOp.advStage) := by
  refine ⟨applyOps_stage_lt _ ops ?_, applyOps_stage_le _ more, ?_⟩
  · show (0 : Nat) < 5
    decide
  cases op with
  | advStage => exact Or.inr rfl
  | recordI q a fb => exact Or.inl rfl
  | followupQ p k => exact Or.inl rfl
  | stageQ k => exact Or.inl rfl
  | shouldAsk a => exact Or.inl rfl
  | sysPrompt => exact Or.inl rfl

/-- C5 counterexample: at the terminal stage `advance_stage` is a complete
no-op, so a nonzero `follow_up_count` survives the call. -/
theorem advance_terminal_keeps_count :
    (advance_stage
      { mkOrchestrator "Software Engineer" ["Python"] with
          current_stage := 4, follow_up_count := 1 }).follow_up_count = 1 := by
  decide

/-- C5 (amended): `advance_stage` resets `follow_up_count` to 0 exactly when
called below the terminal stage; at stage 4 it changes nothing at all, so a
nonzero counter survives. -/
theorem advance_stage_reset (o : Orchestrator) :
    (o.current_stage < 4 → (advance_stage o).follow_up_count = 0) ∧
    (4 ≤ o.current_stage → advance_stage o = o) := by
  have h4 : STAGES.length - 1 = 4 := rfl
  constructor
  · intro h
    have hc : o.current_stage < STAGES.length - 1 := by rw [h4]; exact h
    simp [advance_stage, hc]
  · intro h
    have hc : ¬ (o.current_stage < STAGES.length - 1) := by rw [h4]; omega
    simp [advance_stage, hc]

/-- C5 witness: the reset clause at a fresh session. -/
theorem advance_stage_reset_witness :
    (advance_stage (mkOrchestrator "Software Engineer" ["Python"])).follow_up_count = 0 :=
  (advance_stage_reset (mkOrchestrator "Software Engineer" ["Python"])).1 (by decide)

/-- C6: under the stage invariant, the interview is complete exactly at the
closing stage (stage index 4) with at least two recorded interactions. -/
theorem interview_complete_iff (o : Orchestrator) (h : o.current_stage < 5) :
    (is_interview_complete o = true ↔
      (o.current_stage = 4 ∧ 2 ≤ o.conversation_history.length)) := by
  have h4 : STAGES.length - 1 = 4 := rfl
  simp only [is_interview_complete, Bool.and_eq_true, decide_eq_true_eq, h4]
  omega

/-- C6 witness: a closing-stage session with two recorded interactions. -/
theorem interview_complete_iff_witness :
    (is_interview_complete closingSession = true ↔
      (closingSession.current_stage = 4 ∧
        2 ≤ closingSession.conversation_history.length)) :=
  interview_complete_iff closingSession (by decide)

/-- C7: after any operation sequence from a fresh session, the `voice_input`
save/load round trip (which keeps only `job_role`, `skills`, `stage` and
`follow_up_count`) preserves the behavior of `should_ask_followup` on every
answer and reproduces `get_system_prompt` exactly. -/
theorem roundtrip_preserves_behavior (jr : String) (sk : List String)
    (ops : List OrchOp) (a : String) :
    should_ask_followup
        (loadOrchestrator (saveOrchestrator (applyOps (mkOrchestrator jr sk) ops))) a =
      should_ask_followup (applyOps (mkOrchestrator jr sk) ops) a ∧
    get_system_prompt
        (loadOrchestrator (saveOrchestrator (applyOps (mkOrchestrator jr sk) ops))) =
      get_system_prompt (applyOps (mkOrchestrator jr sk) ops) := by
  obtain ⟨hjr, hsk, hw⟩ := applyOps_core_frame (mkOrchestrator jr sk) ops
  set o := applyOps (mkOrchestrator jr sk) ops with ho
  have hmkne : (mkOrchestrator jr sk).resume_skills ≠ [] := by
    show (if sk = [] then ["general technical skills"] else sk) ≠ []
    split
    · simp
    · rename_i hne
      exact hne
  have hne : o.resume_skills ≠ [] := by
    rw [hsk]
    exact hmkne
  have hskload : (loadOrchestrator (saveOrchestrator o)).resume_skills = o.resume_skills := by
    show (if o.resume_skills = [] then ["general technical skills"] else o.resume_skills) =
      o.resume_skills
    rw [if_neg hne]
  have hwload : (loadOrchestrator (saveOrchestrator o)).weak_areas = o.weak_areas := by
    rw [hw]
    rfl
  exact ⟨shouldAsk_congr o (loadOrchestrator (saveOrchestrator o)) a rfl rfl,
    sysPrompt_congr o (loadOrchestrator (saveOrchestrator o)) rfl hskload rfl rfl hwload⟩

/-- C8: `record_interaction` appends exactly one history entry — the stage
name from `STAGES`, the given question and answer, the follow-up flag, the
whitespace token count of the answer, and the re-invoked vagueness verdict —
and changes no other session field. -/
theorem record_interaction_spec (o : Orchestrator) (q a : String) (fb : Bool)
    (h : o.current_stage < 5) :
    (record_interaction o q a fb).conversation_history =
      o.conversation_history ++
        [{ stage := STAGES.getD o.current_stage ""
           question := q
           answer := a
           is_followup := fb
           word_count := pyWordCount a
           needed_followup := should_ask_followup o a }] ∧
    (record_interaction o q a fb).job_role = o.job_role ∧
    (record_interaction o q a fb).resume_skills = o.resume_skills ∧
    (record_interaction o q a fb).current_stage = o.current_stage ∧
    (record_interaction o q a fb).follow_up_count = o.follow_up_count ∧
    (record_interaction o q a fb).questions_asked = o.questions_asked ∧
    (record_interaction o q a fb).weak_areas = o.weak_areas :=
  ⟨rfl, rfl, rfl, rfl, rfl, rfl, rfl⟩

/-- C8 witness: recording one interaction on a fresh session. -/
theorem record_interaction_spec_witness :
    (record_interaction (mkOrchestrator "Software Engineer" ["Python"]) "q" "a b c"
        false).conversation_history =
      (mkOrchestrator "Software Engineer" ["Python"]).conversation_history ++
        [{ stage := STAGES.getD (mkOrchestrator "Software Engineer" ["Python"]).current_stage ""
           question := "q"
           answer := "a b c"
           is_followup := false
           word_count := pyWordCount "a b c"
           needed_followup :=
             should_ask_followup (mkOrchestrator "Software Engineer" ["Python"]) "a b c" }] ∧
    (record_interaction (mkOrchestrator "Software Engineer" ["Python"]) "q" "a b c"
        false).job_role = (mkOrchestrator "Software Engineer" ["Python"]).job_role ∧
    (record_interaction (mkOrchestrator "Software Engineer" ["Python"]) "q" "a b c"
        false).resume_skills = (mkOrchestrator "Software Engineer" ["Python"]).resume_skills ∧
    (record_interaction (mkOrchestrator "Software Engineer" ["Python"]) "q" "a b c"
        false).current_stage = (mkOrchestrator "Software Engineer" ["Python"]).current_stage ∧
    (record_interaction (mkOrchestrator "Software Engineer" ["Python"]) "q" "a b c"
        false).follow_up_count = (mkOrchestrator "Software Engineer" ["Python"]).follow_up_count ∧
    (record_interaction (mkOrchestrator "Software Engineer" ["Python"]) "q" "a b c"
        false).questions_asked = (mkOrchestrator "Software Engineer" ["Python"]).questions_asked ∧
    (record_interaction (mkOrchestrator "Software Engineer" ["Python"]) "q" "a b c"
        false).weak_areas = (mkOrchestrator "Software Engineer" ["Python"]).weak_areas :=
  record_interaction_spec (mkOrchestrator "Software Engineer" ["Python"]) "q" "a b c" false
    (by decide)

/-- C9: `get_followup_question` increments `follow_up_count` by exactly one,
with no upper-bound check, and changes no other session field; a fallback turn
entered with `follow_up_count = 1` and a vague answer therefore ends with the
counter at 3, above the cap of 2. -/
theorem followup_question_increments (o : Orchestrator) (prev : String) (k : Nat)
    (s : Orchestrator) (q a : String) (m : Nat)
    (hc : s.follow_up_count = 1) (hv : should_ask_followup s a = true) :
    (get_followup_question o prev k).2.follow_up_count = o.follow_up_count + 1 ∧
    (get_followup_question o prev k).2.job_role = o.job_role ∧
    (get_followup_question o prev k).2.resume_skills = o.resume_skills ∧
    (get_followup_question o prev k).2.current_stage = o.current_stage ∧
    (get_followup_question o prev k).2.questions_asked = o.questions_asked ∧
    (get_followup_question o prev k).2.conversation_history = o.conversation_history ∧
    (get_followup_question o prev k).2.weak_areas = o.weak_areas ∧
    (turnStep s q a true m).follow_up_count = 3 := by
  refine ⟨rfl, rfl, rfl, rfl, rfl, rfl, rfl, ?_⟩
  have h12 : s.follow_up_count < 2 := by omega
  simp [turnStep, hv, h12, record_interaction, get_followup_question, hc]

/-- C9 witness: a session with one follow-up already asked, a vague answer,
and the generator down. -/
theorem followup_question_increments_witness :
    (get_followup_question (mkOrchestrator "Software Engineer" ["Python"]) "prev"
        0).2.follow_up_count =
      (mkOrchestrator "Software Engineer" ["Python"]).follow_up_count + 1 ∧
    (get_followup_question (mkOrchestrator "Software Engineer" ["Python"]) "prev"
        0).2.job_role = (mkOrchestrator "Software Engineer" ["Python"]).job_role ∧
    (get_followup_question (mkOrchestrator "Software Engineer" ["Python"]) "prev"
        0).2.resume_skills = (mkOrchestrator "Software Engineer" ["Python"]).resume_skills ∧
    (get_followup_question (mkOrchestrator "Software Engineer" ["Python"]) "prev"
        0).2.current_stage = (mkOrchestrator "Software Engineer" ["Python"]).current_stage ∧
    (get_followup_question (mkOrchestrator "Software Engineer" ["Python"]) "prev"
        0).2.questions_asked = (mkOrchestrator "Software Engineer" ["Python"]).questions_asked ∧
    (get_followup_question (mkOrchestrator "Software Engineer" ["Python"]) "prev"
        0).2.conversation_history =
      (mkOrchestrator "Software Engineer" ["Python"]).conversation_history ∧
    (get_followup_question (mkOrchestrator "Software Engineer" ["Python"]) "prev"
        0).2.weak_areas = (mkOrchestrator "Software Engineer" ["Python"]).weak_areas ∧
    (turnStep
        { mkOrchestrator "Software Engineer" ["Python"] with follow_up_count := 1 }
        "q" "hi" true 0).follow_up_count = 3 :=
  followup_question_increments (mkOrchestrator "Software Engineer" ["Python"]) "prev" 0
    { mkOrchestrator "Software Engineer" ["Python"] with follow_up_count := 1 }
    "q" "hi" 0 (by decide) (by decide)

/-- C10: for stages in `[0, 4]` the `STAGES` lookup performed by the prompt,
question and recording operations is in bounds, so the checked lookup agrees
with the total one used in the model; the restore path copies the stored stage
without validation, and a stored stage of 7 yields a session whose stage
lookup fails. -/
theorem stages_lookup_total (o : Orchestrator) (r : OrchRecord)
    (h : o.current_stage ≤ 4) :
    o.current_stage < STAGES.length ∧
    STAGES[o.current_stage]? = some (STAGES.getD o.current_stage "") ∧
    (loadOrchestrator r).current_stage = r.stage ∧
    (loadOrchestrator
        { job_role := "x", skills := ["y"], stage := 7, follow_up_count := 0 }).current_stage = 7 ∧
    STAGES[(7 : Nat)]? = none := by
  have h5 : STAGES.length = 5 := rfl
  refine ⟨by omega, ?_, rfl, rfl, rfl⟩
  generalize hg : o.current_stage = n at h
  interval_cases n <;> rfl

/-- C10 witness: a fresh session and a concrete stored record. -/
theorem stages_lookup_total_witness :
    (mkOrchestrator "Software Engineer" ["Python"]).current_stage < STAGES.length ∧
    STAGES[(mkOrchestrator "Software Engineer" ["Python"]).current_stage]? =
      some (STAGES.getD (mkOrchestrator "Software Engineer" ["Python"]).current_stage "") ∧
    (loadOrchestrator
        { job_role := "r", skills := ["s"], stage := 2, follow_up_count := 0 }).current_stage =
      ({ job_role := "r", skills := ["s"], stage := 2, follow_up_count := 0 } : OrchRecord).stage ∧
    (loadOrchestrator
        { job_role := "x", skills := ["y"], stage := 7, follow_up_count := 0 }).current_stage = 7 ∧
    STAGES[(7 : Nat)]? = none :=
  stages_lookup_total (mkOrchestrator "Software Engineer" ["Python"])
    { job_role := "r", skills := ["s"], stage := 2, follow_up_count := 0 } (by decide)

end AIN
